import Mathlib

/-!
Shallow embedding of the fuel-tracker calculation core
(`src/server/utils/calculations.ts`, the dashboard aggregation in
`src/app/api/dashboard` GET, and the unit-conversion helpers).

JavaScript numbers are modelled by `JsNum`: a finite rational, the two
infinities, `NaN`, or `undefined` (a missing field, which JS arithmetic
coerces to `NaN`).  Database `Decimal` columns are always finite and are
modelled as plain rationals; nullable columns as `Option`.  The Prisma
queries the code awaits are modelled as pure functions over the list of
rows the query ranges over.
-/

/-- A JavaScript number value (plus `undefined` for an absent field). -/
inductive JsNum where
  | fin (q : ℚ)
  | posInf
  | negInf
  | nan
  | undef
deriving DecidableEq

namespace JsNum

/-- `Number.isFinite`. -/
def isFinite : JsNum → Bool
  | fin _ => true
  | _ => false

/-- JavaScript truthiness of a number: `0`, `NaN` and `undefined` are falsy. -/
def truthy : JsNum → Bool
  | fin q => decide (q ≠ 0)
  | posInf => true
  | negInf => true
  | nan => false
  | undef => false

/-- JavaScript `+` on numbers (`undefined` coerces to `NaN`). -/
def add : JsNum → JsNum → JsNum
  | fin a, fin b => fin (a + b)
  | fin _, posInf => posInf
  | fin _, negInf => negInf
  | posInf, fin _ => posInf
  | negInf, fin _ => negInf
  | posInf, posInf => posInf
  | negInf, negInf => negInf
  | _, _ => nan

/-- JavaScript `-` on numbers. -/
def sub : JsNum → JsNum → JsNum
  | fin a, fin b => fin (a - b)
  | fin _, posInf => negInf
  | fin _, negInf => posInf
  | posInf, fin _ => posInf
  | negInf, fin _ => negInf
  | posInf, negInf => posInf
  | negInf, posInf => negInf
  | _, _ => nan

/-- JavaScript `*` on numbers. -/
def mul : JsNum → JsNum → JsNum
  | fin a, fin b => fin (a * b)
  | fin a, posInf => if a = 0 then nan else if 0 < a then posInf else negInf
  | fin a, negInf => if a = 0 then nan else if 0 < a then negInf else posInf
  | posInf, fin b => if b = 0 then nan else if 0 < b then posInf else negInf
  | negInf, fin b => if b = 0 then nan else if 0 < b then negInf else posInf
  | posInf, posInf => posInf
  | posInf, negInf => negInf
  | negInf, posInf => negInf
  | negInf, negInf => posInf
  | _, _ => nan

/-- JavaScript `/` on numbers (division by zero gives an infinity or `NaN`;
the sign of a zero divisor is not modelled, `+0` is assumed). -/
def div : JsNum → JsNum → JsNum
  | fin a, fin b =>
      if b = 0 then (if a = 0 then nan else if 0 < a then posInf else negInf)
      else fin (a / b)
  | fin _, posInf => fin 0
  | fin _, negInf => fin 0
  | posInf, fin b => if 0 ≤ b then posInf else negInf
  | negInf, fin b => if 0 ≤ b then negInf else posInf
  | _, _ => nan

/-- `Math.min` on two numbers (`NaN` propagates). -/
def jsMin : JsNum → JsNum → JsNum
  | fin a, fin b => fin (min a b)
  | fin a, posInf => fin a
  | posInf, fin b => fin b
  | fin _, negInf => negInf
  | negInf, fin _ => negInf
  | posInf, posInf => posInf
  | negInf, negInf => negInf
  | posInf, negInf => negInf
  | negInf, posInf => negInf
  | _, _ => nan

/-- `Math.max` on two numbers (`NaN` propagates). -/
def jsMax : JsNum → JsNum → JsNum
  | fin a, fin b => fin (max a b)
  | fin _, posInf => posInf
  | posInf, fin _ => posInf
  | fin a, negInf => fin a
  | negInf, fin b => fin b
  | posInf, posInf => posInf
  | negInf, negInf => negInf
  | posInf, negInf => posInf
  | negInf, posInf => posInf
  | _, _ => nan

end JsNum

/-- `fillLevel` enum of the Prisma schema. -/
inductive FillLevel where
  | FULL
  | PARTIAL
deriving DecidableEq

/-- A stored `fillUpEntry` row as seen by the predecessor lookup in
`calculateDerivedFields` (`prisma.fillUpEntry.findFirst`): the scope columns
and the `Decimal` odometer reading (always finite in the database). -/
structure DbEntry where
  userId : Int
  vehicleId : Int
  tankId : Option Int
  entryDate : Int
  odometerKm : ℚ
deriving DecidableEq

/-- The `where` clause of the `findFirst` call in `calculateDerivedFields`:
same user, same vehicle, same tank (`tankId ?? null`; a SQL `NULL` tank only
matches `NULL`), and `odometerKm: { lt: odometerKm }`. -/
def entryInScope (userId vehicleId : Int) (tankId : Option Int)
    (odometerKm : ℚ) (e : DbEntry) : Bool :=
  decide (e.userId = userId) && decide (e.vehicleId = vehicleId) &&
    decide (e.tankId = tankId) && decide (e.odometerKm < odometerKm)

/-- The `prisma.fillUpEntry.findFirst` call of `calculateDerivedFields`:
`orderBy: { odometerKm: 'desc' }` plus `findFirst` return an in-scope row
whose `odometerKm` is maximal, so the query is an `argmax` over the rows
matching the `where` clause (`none` when no row matches). -/
def findPrecedingEntry (db : List DbEntry) (userId vehicleId : Int)
    (tankId : Option Int) (odometerKm : ℚ) : Option DbEntry :=
  (db.filter (entryInScope userId vehicleId tankId odometerKm)).argmax
    DbEntry.odometerKm

/-!  Unit conversion helpers.

The module `src/server/utils/conversions.ts` that `calculations.ts` imports
is not among the repository files provided; the two economy helpers it
exports are modelled from the spec.  -/

/-- One mile in kilometers (spec constant `1.609344`). -/
def MILE_IN_KM : ℚ := 1.609344

/-- One US gallon in liters (spec constant `3.785411784`). -/
def GALLON_IN_L : ℚ := 3.785411784

/-- Modelled from the spec: `calculateLPer100Km(distanceKm, volumeL)` of the
missing `src/server/utils/conversions.ts` returns `(volumeL / distanceKm) *
100`; the caller guarantees `distanceKm > 0`. -/
def calculateLPer100Km (distanceKm volumeL : ℚ) : ℚ :=
  volumeL / distanceKm * 100

/-- Modelled from the spec: `mpgFromMetric(distanceKm, volumeL)` of the
missing `src/server/utils/conversions.ts` returns
`(distanceKm / 1.609344) / (volumeL / 3.785411784)`. -/
def mpgFromMetric (distanceKm volumeL : ℚ) : ℚ :=
  (distanceKm / MILE_IN_KM) / (volumeL / GALLON_IN_L)

/-!  The derived-fields calculator (`calculateDerivedFields`).

The enhanced copy of `calculations.ts` shipped in the sources (alongside
`src/server/auth/index.ts`, the copy the claims cite) first asserts the
three resolved numeric inputs finite and rejects non-positive volume or
cost, then performs the predecessor lookup and fills the derived fields.  -/

/-- The raw entry input after the `input.odometerKm ?? toKm(...)` /
`input.fuelVolumeL ?? toLiters(...)` resolution at the top of
`calculateDerivedFields`: the three resolved JS numbers (possibly `NaN`,
infinite or `undefined` when the raw fields were missing or invalid) and
the fill level. -/
structure EntryInput where
  odometerKm : JsNum
  fuelVolumeL : JsNum
  totalCost : JsNum
  fillLevel : FillLevel
deriving DecidableEq

/-- The record `calculateDerivedFields` resolves to. -/
structure DerivedFields where
  odometerKm : ℚ
  fuelVolumeL : ℚ
  pricePerLiter : Option ℚ
  distanceSinceLastKm : Option ℚ
  economyLPer100Km : Option ℚ
  economyMpg : Option ℚ
  costPerKm : Option ℚ
deriving DecidableEq

/-- Equality of `Except` results is decidable (used to evaluate the
calculator at concrete inputs). -/
instance {e a : Type} [DecidableEq e] [DecidableEq a] :
    DecidableEq (Except e a) := fun x y =>
  match x, y with
  | .ok u, .ok v =>
    if h : u = v then .isTrue (by rw [h])
    else .isFalse (fun hh => h (Except.ok.inj hh))
  | .error u, .error v =>
    if h : u = v then .isTrue (by rw [h])
    else .isFalse (fun hh => h (Except.error.inj hh))
  | .ok _, .error _ => .isFalse (fun hh => Except.noConfusion hh)
  | .error _, .ok _ => .isFalse (fun hh => Except.noConfusion hh)

/-- `assertFiniteNumber(value, field)`: throws
`Invalid numeric value for <field>` unless the value is a finite number. -/
def assertFiniteNumber (value : JsNum) (field : String) : Except String ℚ :=
  match value with
  | .fin q => .ok q
  | _ => .error ("Invalid numeric value for " ++ field)

/-- The four `let`-mutable locals of `calculateDerivedFields` that depend on
the predecessor lookup. -/
structure PrevDerived where
  distanceSinceLastKm : Option ℚ
  economyLPer100Km : Option ℚ
  economyMpg : Option ℚ
  costPerKm : Option ℚ
deriving DecidableEq

/-- The `if (previous) { ... }` block of `calculateDerivedFields`: all four
fields stay `null` without a predecessor or when `dist <= 0`; else distance
and cost-per-km are set, and the economy pair only for a `FULL` fill. -/
def derivedFromPrevious (fillLevel : FillLevel)
    (odometerKm fuelVolumeL totalCost : ℚ) (previous : Option DbEntry) :
    PrevDerived :=
  match previous with
  | none => ⟨none, none, none, none⟩
  | some prev =>
    let dist := odometerKm - prev.odometerKm
    if 0 < dist then
      { distanceSinceLastKm := some dist
        economyLPer100Km :=
          if fillLevel = .FULL ∧ 0 < fuelVolumeL then
            some (calculateLPer100Km dist fuelVolumeL)
          else none
        economyMpg :=
          if fillLevel = .FULL ∧ 0 < fuelVolumeL then
            some (mpgFromMetric dist fuelVolumeL)
          else none
        costPerKm := some (totalCost / dist) }
    else ⟨none, none, none, none⟩

/-- `calculateDerivedFields(userId, vehicleId, tankId, input)` over the
fill-up-entry rows `db` that its awaited `findFirst` query ranges over.
Mirrors the source top to bottom: finiteness assertions on the resolved
odometer/volume/cost, the positivity rejection, `pricePerLiter`, the
predecessor lookup, and the distance/economy/cost block. -/
def calculateDerivedFields (db : List DbEntry) (userId vehicleId : Int)
    (tankId : Option Int) (input : EntryInput) :
    Except String DerivedFields :=
  match assertFiniteNumber input.odometerKm "odometerKm" with
  | .error msg => .error msg
  | .ok odometerKm =>
  match assertFiniteNumber input.fuelVolumeL "fuelVolumeL" with
  | .error msg => .error msg
  | .ok fuelVolumeL =>
  match assertFiniteNumber input.totalCost "totalCost" with
  | .error msg => .error msg
  | .ok totalCost =>
  if fuelVolumeL ≤ 0 ∨ totalCost ≤ 0 then
    .error "Fuel volume and total cost must be greater than zero"
  else
    let pricePerLiter : Option ℚ :=
      if 0 < fuelVolumeL then some (totalCost / fuelVolumeL) else none
    let previous := findPrecedingEntry db userId vehicleId tankId odometerKm
    let d := derivedFromPrevious input.fillLevel odometerKm fuelVolumeL
      totalCost previous
    .ok { odometerKm := odometerKm
          fuelVolumeL := fuelVolumeL
          pricePerLiter := pricePerLiter
          distanceSinceLastKm := d.distanceSinceLastKm
          economyLPer100Km := d.economyLPer100Km
          economyMpg := d.economyMpg
          costPerKm := d.costPerKm }

/-!  The aggregate statistics calculator (`calculateFuelStats`).

`calculateFuelStats(vehicleId, tankId?, fuelType?)` awaits a `findMany`
ordered by `entryDate` ascending; the function is modelled over the row
list that query returns.  The numeric columns pass through `Number(...)`,
which can yield a non-finite JS number for corrupt or overflowing data, so
they are modelled as `JsNum`.  -/

/-- A row of the `findMany` result inside `calculateFuelStats`, after the
`Number(...)` conversions the code applies to each field. -/
structure StatEntry where
  id : Int
  odometerKm : JsNum
  fuelVolumeL : JsNum
  totalCost : JsNum
  fillLevel : FillLevel
  economyLPer100Km : Option JsNum
  economyMpg : Option JsNum
deriving DecidableEq

/-- The `safeEntries` predicate of `calculateFuelStats`:
`Number.isFinite(odometer) && Number.isFinite(fuel) && Number.isFinite(cost)`
(a failing row is logged with `console.warn` and skipped). -/
def safeStatEntry (e : StatEntry) : Bool :=
  e.odometerKm.isFinite && e.fuelVolumeL.isFinite && e.totalCost.isFinite

/-- `Number(x)` for a nullable numeric field (`Number(null)` is `0`). -/
def numberOf : Option JsNum → JsNum
  | some v => v
  | none => .fin 0

/-- The record `calculateFuelStats` returns.  In the source the empty-set
early return leaves `avgEconomyMpg` out of the object, i.e. `undefined`;
both `null` and `undefined` are modelled as `none`. -/
structure FuelStats where
  totalFuelL : JsNum
  totalCost : JsNum
  totalDistanceKm : JsNum
  avgEconomyLPer100Km : Option JsNum
  avgEconomyMpg : Option JsNum
  avgPricePerLiter : Option JsNum
  entryCount : Nat
deriving DecidableEq

/-- `calculateFuelStats` over the rows its `findMany` returns (already
restricted by the `where` clause and ordered by `entryDate` ascending). -/
def calculateFuelStats (entries : List StatEntry) : FuelStats :=
  match entries.filter safeStatEntry with
  | [] =>
    { totalFuelL := .fin 0
      totalCost := .fin 0
      totalDistanceKm := .fin 0
      avgEconomyLPer100Km := none
      avgEconomyMpg := none
      avgPricePerLiter := none
      entryCount := 0 }
  | e0 :: rest =>
    let safeEntries := e0 :: rest
    let totalFuelL :=
      safeEntries.foldl (fun sum e => sum.add e.fuelVolumeL) (.fin 0)
    let totalCost :=
      safeEntries.foldl (fun sum e => sum.add e.totalCost) (.fin 0)
    let totalDistanceKm :=
      if rest.isEmpty then .fin 0
      else (rest.getLastD e0).odometerKm.sub e0.odometerKm
    let fullFills := safeEntries.filter
      (fun e => decide (e.fillLevel = .FULL) && e.economyLPer100Km.isSome)
    let avgEconomyLPer100Km :=
      if fullFills.length = 0 then none
      else some ((fullFills.foldl
        (fun sum e => sum.add (numberOf e.economyLPer100Km))
        (JsNum.fin 0)).div (.fin fullFills.length))
    let mpgSamples := safeEntries.filter
      (fun e => decide (e.fillLevel = .FULL) && e.economyMpg.isSome)
    let avgEconomyMpg :=
      if mpgSamples.length = 0 then none
      else some ((mpgSamples.foldl
        (fun sum e => sum.add (numberOf e.economyMpg))
        (JsNum.fin 0)).div (.fin mpgSamples.length))
    let avgPricePerLiter :=
      match totalFuelL with
      | .fin q => if 0 < q then some (totalCost.div totalFuelL) else none
      | .posInf => some (totalCost.div totalFuelL)
      | _ => none
    { totalFuelL := totalFuelL
      totalCost := totalCost
      totalDistanceKm := totalDistanceKm
      avgEconomyLPer100Km := avgEconomyLPer100Km
      avgEconomyMpg := avgEconomyMpg
      avgPricePerLiter := avgPricePerLiter
      entryCount := safeEntries.length }

/-!  The consolidated dashboard endpoint (`GET /api/dashboard`).

Its per-vehicle stats block and its fleet-health block are pure functions
of the fetched entry and vehicle rows.  -/

/-- `avg || null` applied to a computed average (a plain JS number or
`null`): a falsy value — `null`, `0` or `NaN` — becomes `null`. -/
def jsOrNull (v : Option JsNum) : Option JsNum :=
  match v with
  | some a => if a.truthy then some a else none
  | none => none

/-- A `fillUpEntry` row as used by the dashboard handler.  The numeric
columns are Prisma `Decimal` (nullable for the two economy fields); each
`JsNum` is the `Number(...)` image of the stored value.  The raw column
value itself is a `Decimal` *object*, so its JS truthiness is mere
non-nullness: a stored `Decimal` 0 is truthy. -/
structure DashEntry where
  vehicleId : Int
  fuelVolumeL : JsNum
  totalCost : JsNum
  economyLPer100Km : Option JsNum
  economyMpg : Option JsNum
deriving DecidableEq

/-- A `vehicle` row as used by the dashboard handler (`expectedMpg` is a
nullable `Decimal` column, hence a nullable rational). -/
structure Vehicle where
  id : Int
  expectedMpg : Option ℚ
deriving DecidableEq

/-- The `stats` object of one element of `vehiclesWithStats`. -/
structure VehicleStats where
  entryCount : Nat
  totalFuelL : JsNum
  totalCost : JsNum
  avgEconomyLPer100Km : Option JsNum
  avgEconomyMpg : Option JsNum
deriving DecidableEq

/-- The body of the `vehiclesWithStats` map in the dashboard handler,
applied to one vehicle's entries.  `filter(e => e.economyLPer100Km)` tests
the raw `Decimal | null` column, and a `Decimal` object is truthy whatever
value it holds, so the sample filters keep every non-null row — a stored
`Decimal` 0 stays in the sample set.  `Number(e.field || 0)` on a
non-nullable `Decimal` column is just the stored value (`|| 0` fires only
on `null`).  The computed averages are plain JS numbers, so the final
`avg... || null` coercion is numeric truthiness. -/
def vehicleStats (vehicleEntries : List DashEntry) : VehicleStats :=
  let totalFuelL := vehicleEntries.foldl
    (fun sum e => sum.add e.fuelVolumeL) (JsNum.fin 0)
  let totalCost := vehicleEntries.foldl
    (fun sum e => sum.add e.totalCost) (JsNum.fin 0)
  let economySamples := vehicleEntries.filter
    (fun e => e.economyLPer100Km.isSome)
  let avgEconomyLPer100Km : Option JsNum :=
    if economySamples.length = 0 then none
    else some ((economySamples.foldl
      (fun sum e => sum.add (numberOf e.economyLPer100Km))
      (JsNum.fin 0)).div (.fin economySamples.length))
  let mpgSamples := vehicleEntries.filter (fun e => e.economyMpg.isSome)
  let avgEconomyMpg : Option JsNum :=
    if mpgSamples.length = 0 then none
    else some ((mpgSamples.foldl
      (fun sum e => sum.add (numberOf e.economyMpg))
      (JsNum.fin 0)).div (.fin mpgSamples.length))
  { entryCount := vehicleEntries.length
    totalFuelL := totalFuelL
    totalCost := totalCost
    avgEconomyLPer100Km := jsOrNull avgEconomyLPer100Km
    avgEconomyMpg := jsOrNull avgEconomyMpg }

/-- The dashboard's `stats` for one vehicle: its entries are the user's
entries with this `vehicleId`. -/
def dashboardVehicleStats (entries : List DashEntry) (v : Vehicle) :
    VehicleStats :=
  vehicleStats (entries.filter (fun e => decide (e.vehicleId = v.id)))

/-- The `fleetHealth` object of the dashboard response. -/
structure FleetHealth where
  fleetAvgMpg : Option JsNum
  expectedAvgMpg : Option ℚ
  healthScore : Option JsNum
deriving DecidableEq

/-- The `healthScore` ternary of the dashboard handler:
`fleetAvgMpg && expectedAvgMpg
   ? Math.max(0, Math.min(120, (fleetAvgMpg / expectedAvgMpg) * 100))
   : null`. -/
def computeHealthScore (fleetAvgMpg : Option JsNum)
    (expectedAvgMpg : Option ℚ) : Option JsNum :=
  match fleetAvgMpg, expectedAvgMpg with
  | some f, some e =>
    if f.truthy && decide (e ≠ 0) then
      some ((JsNum.fin 0).jsMax ((JsNum.fin 120).jsMin
        ((f.div (.fin e)).mul (.fin 100))))
    else none
  | _, _ => none

/-- The fleet-health block of the dashboard handler: `fleetAvgMpg` averages
`economyMpg` over the rows whose raw `Decimal | null` column is truthy,
i.e. non-null (a stored `Decimal` 0 is a truthy object and stays in the
sample).  `expectedValues` goes through two steps: the `vehiclesWithStats`
map turns the `Decimal | null` column into a plain number or `null`
(`vehicle.expectedMpg ? Number(vehicle.expectedMpg) : null`, keeping a
stored 0 as the number 0), then `.filter(v => v.expectedMpg)` drops `null`
and `0` by numeric truthiness. -/
def fleetHealth (entries : List DashEntry) (vehicles : List Vehicle) :
    FleetHealth :=
  let fleetMpgSamples := entries.filter (fun e => e.economyMpg.isSome)
  let fleetAvgMpg : Option JsNum :=
    if fleetMpgSamples.length = 0 then none
    else some ((fleetMpgSamples.foldl
      (fun sum e => sum.add (numberOf e.economyMpg))
      (JsNum.fin 0)).div (.fin fleetMpgSamples.length))
  let expectedValues : List ℚ := (vehicles.filterMap Vehicle.expectedMpg).filter
    (fun q => decide (q ≠ 0))
  let expectedAvgMpg : Option ℚ :=
    if expectedValues.length = 0 then none
    else some ((expectedValues.foldl (fun sum v => sum + v) 0) /
      expectedValues.length)
  { fleetAvgMpg := fleetAvgMpg
    expectedAvgMpg := expectedAvgMpg
    healthScore := computeHealthScore fleetAvgMpg expectedAvgMpg }

/-!  Properties of the predecessor lookup.  -/

theorem findPrecedingEntry_mem {db : List DbEntry} {userId vehicleId : Int}
    {tankId : Option Int} {odometerKm : ℚ} {e : DbEntry}
    (h : findPrecedingEntry db userId vehicleId tankId odometerKm = some e) :
    e ∈ db ∧ entryInScope userId vehicleId tankId odometerKm e = true := by
  have := List.argmax_mem (f := DbEntry.odometerKm) (Option.mem_def.mpr h)
  exact List.mem_filter.mp this

theorem findPrecedingEntry_scope {db : List DbEntry} {userId vehicleId : Int}
    {tankId : Option Int} {odometerKm : ℚ} {e : DbEntry}
    (h : findPrecedingEntry db userId vehicleId tankId odometerKm = some e) :
    e.userId = userId ∧ e.vehicleId = vehicleId ∧ e.tankId = tankId ∧
      e.odometerKm < odometerKm := by
  have hs := (findPrecedingEntry_mem h).2
  simp only [entryInScope, Bool.and_eq_true, decide_eq_true_eq] at hs
  exact ⟨hs.1.1.1, hs.1.1.2, hs.1.2, hs.2⟩

theorem findPrecedingEntry_maximal {db : List DbEntry} {userId vehicleId : Int}
    {tankId : Option Int} {odometerKm : ℚ} {e : DbEntry}
    (h : findPrecedingEntry db userId vehicleId tankId odometerKm = some e) :
    ∀ x ∈ db, entryInScope userId vehicleId tankId odometerKm x = true →
      x.odometerKm ≤ e.odometerKm := by
  intro x hx hscope
  exact List.le_of_mem_argmax (List.mem_filter.mpr ⟨hx, hscope⟩)
    (Option.mem_def.mpr h)

theorem findPrecedingEntry_isSome {db : List DbEntry} {userId vehicleId : Int}
    {tankId : Option Int} {odometerKm : ℚ} {x : DbEntry} (hx : x ∈ db)
    (hscope : entryInScope userId vehicleId tankId odometerKm x = true) :
    ∃ e, findPrecedingEntry db userId vehicleId tankId odometerKm = some e := by
  rcases he : findPrecedingEntry db userId vehicleId tankId odometerKm with _ | e
  · have : db.filter (entryInScope userId vehicleId tankId odometerKm) = [] :=
      List.argmax_eq_none.mp he
    have : x ∈ ([] : List DbEntry) := this ▸ List.mem_filter.mpr ⟨hx, hscope⟩
    simp at this
  · exact ⟨e, rfl⟩

/-!  Claim theorems.  -/

/-- C1: the derived-fields calculator selects as predecessor an entry of the
same `(userId, vehicleId, tankId-or-null)` scope with the largest
`odometerKm` strictly less than the new entry's `odometerKm` — maximality
holds over the whole row set regardless of `entryDate` or list position —
and some predecessor is returned whenever any in-scope row exists.  The
scope condition `x.tankId = tankId` instantiated at `tankId = none` says a
null-tank input matches only rows whose `tankId` is null. -/
theorem c1_predecessor_is_odometer_argmax (db : List DbEntry)
    (userId vehicleId : Int) (tankId : Option Int) (odometerKm : ℚ) :
    (∀ e, findPrecedingEntry db userId vehicleId tankId odometerKm = some e →
      e ∈ db ∧ e.userId = userId ∧ e.vehicleId = vehicleId ∧
        e.tankId = tankId ∧ e.odometerKm < odometerKm ∧
        ∀ x ∈ db, x.userId = userId → x.vehicleId = vehicleId →
          x.tankId = tankId → x.odometerKm < odometerKm →
          x.odometerKm ≤ e.odometerKm) ∧
    (∀ x ∈ db, x.userId = userId → x.vehicleId = vehicleId →
      x.tankId = tankId → x.odometerKm < odometerKm →
      ∃ e, findPrecedingEntry db userId vehicleId tankId odometerKm = some e) := by
  constructor
  · intro e he
    obtain ⟨hmem, _⟩ := findPrecedingEntry_mem he
    obtain ⟨h1, h2, h3, h4⟩ := findPrecedingEntry_scope he
    refine ⟨hmem, h1, h2, h3, h4, ?_⟩
    intro x hx hx1 hx2 hx3 hx4
    exact findPrecedingEntry_maximal he x hx
      (by simp [entryInScope, hx1, hx2, hx3, hx4])
  · intro x hx hx1 hx2 hx3 hx4
    exact findPrecedingEntry_isSome hx
      (by simp [entryInScope, hx1, hx2, hx3, hx4])

/-- C6: when no stored row survives the finiteness filter (in particular on
an empty input list) `calculateFuelStats` returns zero totals, zero entry
count and null averages; being a total Lean function, it never throws. -/
theorem c6_empty_stats_zero_filled (entries : List StatEntry)
    (h : entries.filter safeStatEntry = []) :
    calculateFuelStats entries =
      { totalFuelL := .fin 0
        totalCost := .fin 0
        totalDistanceKm := .fin 0
        avgEconomyLPer100Km := none
        avgEconomyMpg := none
        avgPricePerLiter := none
        entryCount := 0 } := by
  simp only [calculateFuelStats, h]

/-- Witness for C6 at the concrete empty list. -/
theorem c6_witness :
    calculateFuelStats [] =
      { totalFuelL := .fin 0
        totalCost := .fin 0
        totalDistanceKm := .fin 0
        avgEconomyLPer100Km := none
        avgEconomyMpg := none
        avgPricePerLiter := none
        entryCount := 0 } :=
  c6_empty_stats_zero_filled [] rfl

/-- C3: an entry with a non-finite `odometerKm`, `fuelVolumeL` or
`totalCost` is dropped from the aggregation wholesale: removing it from the
input list does not change any output of `calculateFuelStats` (totals,
distance, averages or `entryCount`), and the computation still returns a
result for the remaining entries. -/
theorem c3_nonfinite_entry_excluded (l1 l2 : List StatEntry) (e : StatEntry)
    (he : safeStatEntry e = false) :
    calculateFuelStats (l1 ++ e :: l2) = calculateFuelStats (l1 ++ l2) := by
  have h : (l1 ++ e :: l2).filter safeStatEntry =
      (l1 ++ l2).filter safeStatEntry := by
    simp [List.filter_append, List.filter_cons, he]
  simp only [calculateFuelStats, h]

/-- Witness for C3: a list holding one well-formed entry and one entry with
`totalCost = NaN`; the aggregate equals the aggregate of the good entry
alone (the spec's "silently excludes that entry from totals and count"). -/
theorem c3_witness :
    calculateFuelStats ([⟨1, .fin 100, .fin 40, .fin 60, .FULL, none, none⟩] ++
        ⟨2, .fin 200, .fin 30, .nan, .FULL, none, none⟩ :: []) =
      calculateFuelStats
        ([⟨1, .fin 100, .fin 40, .fin 60, .FULL, none, none⟩] ++ []) :=
  c3_nonfinite_entry_excluded _ _ _ rfl

/-- C2: `calculateDerivedFields` succeeds exactly when the three resolved
numeric inputs are finite numbers (a missing field resolves to `undefined`,
which is not finite) with positive volume and cost; in every other case it
propagates a validation error, so invalid numeric input is never coerced to
zero, skipped, or turned into a null field. -/
theorem c2_validation_rejects_invalid_input (db : List DbEntry)
    (userId vehicleId : Int) (tankId : Option Int) (input : EntryInput) :
    (∃ r, calculateDerivedFields db userId vehicleId tankId input =
        Except.ok r) ↔
      (∃ qo qf qc, input.odometerKm = .fin qo ∧ input.fuelVolumeL = .fin qf ∧
        input.totalCost = .fin qc ∧ 0 < qf ∧ 0 < qc) := by
  obtain ⟨o, f, c, fl⟩ := input
  cases o <;> cases f <;> cases c <;>
    simp [calculateDerivedFields, assertFiniteNumber]
  rename_i qo qf qc
  by_cases hb : qf ≤ 0 ∨ qc ≤ 0
  · simp only [hb, if_true, reduceCtorEq, exists_false, false_iff, not_and,
      not_lt]
    rintro h1
    rcases hb with h | h
    · exact absurd h1 (not_lt.mpr h)
    · exact h
  · have hpos := not_or.mp hb
    simp [hb]
    exact ⟨not_le.mp hpos.1, not_le.mp hpos.2⟩

/-- C4: with a predecessor in scope (whose odometer is strictly smaller, so
the computed distance is positive), `distanceSinceLastKm` and
`costPerKm = totalCost / dist` are populated for every fill level, while
the two economy fields are populated exactly when `fillLevel` is `FULL`;
a `PARTIAL` fill leaves both economy fields null. -/
theorem c4_economy_only_for_full_fills (db : List DbEntry)
    (userId vehicleId : Int) (tankId : Option Int) (qo qf qc : ℚ)
    (fl : FillLevel) (p : DbEntry) (hf : 0 < qf) (hc : 0 < qc)
    (hp : findPrecedingEntry db userId vehicleId tankId qo = some p) :
    calculateDerivedFields db userId vehicleId tankId
        ⟨.fin qo, .fin qf, .fin qc, fl⟩ =
      Except.ok
        { odometerKm := qo
          fuelVolumeL := qf
          pricePerLiter := some (qc / qf)
          distanceSinceLastKm := some (qo - p.odometerKm)
          economyLPer100Km :=
            if fl = .FULL then
              some (calculateLPer100Km (qo - p.odometerKm) qf)
            else none
          economyMpg :=
            if fl = .FULL then
              some (mpgFromMetric (qo - p.odometerKm) qf)
            else none
          costPerKm := some (qc / (qo - p.odometerKm)) } := by
  have hlt := (findPrecedingEntry_scope hp).2.2.2
  have hdist : 0 < qo - p.odometerKm := sub_pos.mpr hlt
  have hb : ¬(qf ≤ 0 ∨ qc ≤ 0) := by
    push_neg
    exact ⟨hf, hc⟩
  simp [calculateDerivedFields, assertFiniteNumber, hb, hp,
    derivedFromPrevious, hdist, hf]

/-- Witness for C4 at concrete inputs: one stored entry at odometer 100 km,
a new FULL entry at 150 km with 40 L for 60 units. -/
theorem c4_witness :
    calculateDerivedFields [⟨1, 1, none, 0, 100⟩] 1 1 none
        ⟨.fin 150, .fin 40, .fin 60, .FULL⟩ =
      Except.ok
        { odometerKm := 150
          fuelVolumeL := 40
          pricePerLiter := some (60 / 40)
          distanceSinceLastKm := some (150 - (100 : ℚ))
          economyLPer100Km :=
            if FillLevel.FULL = .FULL then
              some (calculateLPer100Km (150 - (100 : ℚ)) 40)
            else none
          economyMpg :=
            if FillLevel.FULL = .FULL then
              some (mpgFromMetric (150 - (100 : ℚ)) 40)
            else none
          costPerKm := some (60 / (150 - (100 : ℚ))) } :=
  c4_economy_only_for_full_fills [⟨1, 1, none, 0, 100⟩] 1 1 none 150 40 60
    .FULL ⟨1, 1, none, 0, 100⟩ (by norm_num) (by norm_num) (by decide)

/-- C5: without a usable predecessor all four derived fields are null and
the calculator still returns normally.  First conjunct: the
`if (previous)` block yields four nulls both when the lookup returned
nothing and when the computed distance is non-positive.  Second conjunct:
on valid input with no predecessor in scope, `calculateDerivedFields`
returns `ok` with the four fields null (not an error). -/
theorem c5_no_usable_predecessor_yields_nulls :
    (∀ (fl : FillLevel) (odo fuel cost : ℚ) (previous : Option DbEntry),
      (previous = none ∨
        ∃ p, previous = some p ∧ odo - p.odometerKm ≤ 0) →
      derivedFromPrevious fl odo fuel cost previous =
        ⟨none, none, none, none⟩) ∧
    (∀ (db : List DbEntry) (userId vehicleId : Int) (tankId : Option Int)
      (qo qf qc : ℚ) (fl : FillLevel), 0 < qf → 0 < qc →
      findPrecedingEntry db userId vehicleId tankId qo = none →
      calculateDerivedFields db userId vehicleId tankId
          ⟨.fin qo, .fin qf, .fin qc, fl⟩ =
        Except.ok ⟨qo, qf, some (qc / qf), none, none, none, none⟩) := by
  constructor
  · intro fl odo fuel cost previous hprev
    rcases hprev with h | ⟨p, hp, hd⟩
    · subst h
      rfl
    · subst hp
      simp [derivedFromPrevious, not_lt.mpr hd]
  · intro db userId vehicleId tankId qo qf qc fl hf hc hnone
    have hb : ¬(qf ≤ 0 ∨ qc ≤ 0) := by
      push_neg
      exact ⟨hf, hc⟩
    simp [calculateDerivedFields, assertFiniteNumber, hb, hnone,
      derivedFromPrevious, hf]

/-- C9 (implicit invariant): in every successful result of
`calculateDerivedFields`, `economyLPer100Km` is null exactly when
`economyMpg` is null, and a populated economy pair implies a populated
`distanceSinceLastKm`. -/
theorem c9_economy_fields_copopulated (db : List DbEntry)
    (userId vehicleId : Int) (tankId : Option Int) (input : EntryInput)
    (r : DerivedFields)
    (h : calculateDerivedFields db userId vehicleId tankId input =
      Except.ok r) :
    (r.economyLPer100Km = none ↔ r.economyMpg = none) ∧
    (r.economyLPer100Km ≠ none → r.distanceSinceLastKm ≠ none) := by
  obtain ⟨o, f, c, fl⟩ := input
  cases o <;> cases f <;> cases c <;>
    simp [calculateDerivedFields, assertFiniteNumber] at h
  rename_i qo qf qc
  by_cases hb : qf ≤ 0 ∨ qc ≤ 0
  · simp [hb] at h
  · simp only [hb, if_false] at h
    rcases hprev : findPrecedingEntry db userId vehicleId tankId qo with _ | p <;>
      rw [hprev] at h
    · simp only [derivedFromPrevious, Except.ok.injEq] at h
      subst h
      simp
    · simp only [derivedFromPrevious] at h
      by_cases hd : 0 < qo - p.odometerKm
      · simp only [hd, if_true, Except.ok.injEq] at h
        subst h
        by_cases hfull : fl = FillLevel.FULL ∧ 0 < qf <;> simp [hfull]
      · simp only [hd, if_false, Except.ok.injEq] at h
        subst h
        simp

/-- Witness for C9 at a concrete input: a FULL entry over one stored row. -/
theorem c9_witness :
    ((some (calculateLPer100Km 50 40) : Option ℚ) = none ↔
      (some (mpgFromMetric 50 40) : Option ℚ) = none) ∧
    ((some (calculateLPer100Km 50 40) : Option ℚ) ≠ none →
      (some (50 : ℚ) : Option ℚ) ≠ none) :=
  c9_economy_fields_copopulated [⟨1, 1, none, 0, 100⟩] 1 1 none
    ⟨.fin 150, .fin 40, .fin 60, .FULL⟩
    { odometerKm := 150
      fuelVolumeL := 40
      pricePerLiter := some (60 / 40)
      distanceSinceLastKm := some 50
      economyLPer100Km := some (calculateLPer100Km 50 40)
      economyMpg := some (mpgFromMetric 50 40)
      costPerKm := some (60 / 50) }
    (by
      have hp : findPrecedingEntry [(⟨1, 1, none, 0, 100⟩ : DbEntry)] 1 1 none
          150 = some ⟨1, 1, none, 0, 100⟩ := by decide
      have hb : ¬((40 : ℚ) ≤ 0 ∨ (60 : ℚ) ≤ 0) := by norm_num
      have hdist : (0 : ℚ) < 150 - 100 := by norm_num
      simp [calculateDerivedFields, assertFiniteNumber, hb, hp,
        derivedFromPrevious, hdist]
      norm_num [calculateLPer100Km, mpgFromMetric])

theorem computeHealthScore_none_left (expectedAvgMpg : Option ℚ) :
    computeHealthScore none expectedAvgMpg = none := by
  cases expectedAvgMpg <;> rfl

theorem computeHealthScore_none_right (fleetAvgMpg : Option JsNum) :
    computeHealthScore fleetAvgMpg none = none := by
  cases fleetAvgMpg <;> rfl

theorem fleetHealth_healthScore (entries : List DashEntry)
    (vehicles : List Vehicle) :
    (fleetHealth entries vehicles).healthScore =
      computeHealthScore (fleetHealth entries vehicles).fleetAvgMpg
        (fleetHealth entries vehicles).expectedAvgMpg := rfl

/-- C7: whenever both sides of the ratio are available (a non-null, nonzero
fleet average MPG and a non-null, nonzero expected-MPG mean over the
vehicles that have one), the dashboard's health score is
`clamp(0, 120, (fleetAvgMpg / expectedAvgMpg) * 100)`; when either side is
missing the score is null. -/
theorem c7_fleet_health_score (entries : List DashEntry)
    (vehicles : List Vehicle) :
    (∀ f e, (fleetHealth entries vehicles).fleetAvgMpg = some (.fin f) →
      f ≠ 0 → (fleetHealth entries vehicles).expectedAvgMpg = some e →
      e ≠ 0 →
      (fleetHealth entries vehicles).healthScore =
        some (.fin (max 0 (min 120 (f / e * 100))))) ∧
    ((fleetHealth entries vehicles).fleetAvgMpg = none →
      (fleetHealth entries vehicles).healthScore = none) ∧
    ((fleetHealth entries vehicles).expectedAvgMpg = none →
      (fleetHealth entries vehicles).healthScore = none) := by
  refine ⟨?_, ?_, ?_⟩
  · intro f e hf hfne he hene
    rw [fleetHealth_healthScore, hf, he]
    simp [computeHealthScore, JsNum.truthy, JsNum.div, JsNum.mul,
      JsNum.jsMin, JsNum.jsMax, hfne, hene]
  · intro hf
    rw [fleetHealth_healthScore, hf, computeHealthScore_none_left]
  · intro he
    rw [fleetHealth_healthScore, he, computeHealthScore_none_right]

/-- C8 (conversions modelled from the spec): for positive distance and
volume, `mpgFromMetric` and `calculateLPer100Km` satisfy the cross-unit
round-trip identity: their product is the constant
`100 * GALLON_IN_L / MILE_IN_KM`, which agrees with the spec's rounded
`235.214583` to within `10⁻⁶` — i.e.
`mpgFromMetric(d, v) ≈ 235.214583 / calculateLPer100Km(d, v)` within
floating tolerance. -/
theorem c8_mpg_l100_roundtrip (d v : ℚ) (hd : 0 < d) (hv : 0 < v) :
    mpgFromMetric d v =
      (100 * GALLON_IN_L / MILE_IN_KM) / calculateLPer100Km d v ∧
    |mpgFromMetric d v * calculateLPer100Km d v - 235.214583| <
      1 / 1000000 := by
  have hd0 : d ≠ 0 := ne_of_gt hd
  have hv0 : v ≠ 0 := ne_of_gt hv
  have hM : MILE_IN_KM ≠ 0 := by norm_num [MILE_IN_KM]
  have hG : GALLON_IN_L ≠ 0 := by norm_num [GALLON_IN_L]
  have hprod : mpgFromMetric d v * calculateLPer100Km d v =
      100 * GALLON_IN_L / MILE_IN_KM := by
    unfold mpgFromMetric calculateLPer100Km
    field_simp
    ring
  constructor
  · unfold mpgFromMetric calculateLPer100Km
    field_simp
    ring
  · rw [hprod]
    rw [abs_lt]
    constructor <;> norm_num [GALLON_IN_L, MILE_IN_KM]

/-- Witness for C8 at the spec's scenario numbers (500 km on 40 L). -/
theorem c8_witness :
    (mpgFromMetric 500 40 =
      (100 * GALLON_IN_L / MILE_IN_KM) / calculateLPer100Km 500 40 ∧
    |mpgFromMetric 500 40 * calculateLPer100Km 500 40 - 235.214583| <
      1 / 1000000) :=
  c8_mpg_l100_roundtrip 500 40 (by norm_num) (by norm_num)

theorem jsOrNull_ne_some_fin_zero (v : Option JsNum) :
    jsOrNull v ≠ some (JsNum.fin 0) := by
  cases v with
  | none => simp [jsOrNull]
  | some a =>
    simp only [jsOrNull]
    by_cases h : a.truthy
    · simp only [h, if_true, ne_eq, Option.some.injEq]
      rintro rfl
      simp [JsNum.truthy] at h
    · simp [h]

/-- Counterexample to C10 as stated: the per-vehicle sample filter tests
the raw `Decimal | null` economy column, and a `Decimal` object is truthy
even when it stores 0, so a stored-0 entry is *not* excluded from the
sample set.  Concretely, next to an entry with `economyLPer100Km = 10`, an
entry with a stored `economyLPer100Km = 0` drags the reported average from
10 down to 5 — under the claimed 0-exclusion both averages would be 10. -/
theorem c10_counterexample :
    (vehicleStats
        [⟨1, .fin 40, .fin 60, some (.fin 10), none⟩,
         ⟨1, .fin 40, .fin 60, some (.fin 0), none⟩]).avgEconomyLPer100Km =
      some (.fin 5) ∧
    (vehicleStats
        [⟨1, .fin 40, .fin 60, some (.fin 10), none⟩]).avgEconomyLPer100Km =
      some (.fin 10) ∧
    (some (JsNum.fin 5) : Option JsNum) ≠ some (JsNum.fin 10) := by
  refine ⟨?_, ?_, by simp⟩
  · norm_num [vehicleStats, numberOf, jsOrNull, JsNum.add, JsNum.div,
      JsNum.truthy]
  · norm_num [vehicleStats, numberOf, jsOrNull, JsNum.add, JsNum.div,
      JsNum.truthy]

/-- C10 as amended: the dashboard's per-vehicle economy averages are never
`0`, but the sample filter excludes only entries whose stored economy value
is null (the raw column is a `Decimal` object, truthy even at 0, so a
stored 0 stays in the sample set); a falsy *computed* average — `0` or
`NaN`, where the value is a plain JS number — is reported as null by the
final `avg || null` coercion. -/
theorem c10_null_excluded_avg_never_zero (entries : List DashEntry) :
    ((vehicleStats entries).avgEconomyLPer100Km ≠ some (JsNum.fin 0)) ∧
    ((vehicleStats entries).avgEconomyMpg ≠ some (JsNum.fin 0)) ∧
    ((vehicleStats entries).avgEconomyLPer100Km =
      (vehicleStats (entries.filter
        (fun e => e.economyLPer100Km.isSome))).avgEconomyLPer100Km) ∧
    ((vehicleStats entries).avgEconomyMpg =
      (vehicleStats (entries.filter
        (fun e => e.economyMpg.isSome))).avgEconomyMpg) := by
  refine ⟨jsOrNull_ne_some_fin_zero _, jsOrNull_ne_some_fin_zero _, ?_, ?_⟩
  · have hsamp : (entries.filter
        (fun e => e.economyLPer100Km.isSome)).filter
        (fun e => e.economyLPer100Km.isSome) =
        entries.filter (fun e => e.economyLPer100Km.isSome) := by
      simp [List.filter_filter]
    simp only [vehicleStats, hsamp]
  · have hsamp : (entries.filter (fun e => e.economyMpg.isSome)).filter
        (fun e => e.economyMpg.isSome) =
        entries.filter (fun e => e.economyMpg.isSome) := by
      simp [List.filter_filter]
    simp only [vehicleStats, hsamp]

/-!  Concrete checks of the spec's example scenarios.  -/

example : calculateLPer100Km 500 40 = 8 := by
  norm_num [calculateLPer100Km]

example :
    findPrecedingEntry [⟨7, 3, none, 5, 10000⟩, ⟨7, 3, none, 1, 9000⟩]
      7 3 none 10500 = some ⟨7, 3, none, 5, 10000⟩ := by
  decide

example :
    findPrecedingEntry [⟨7, 3, some 2, 5, 10000⟩] 7 3 none 10500 = none := by
  decide
